import Mathlib

/-!
Verification of the `genepattern-mcp` request dispatcher, credential
provider and task-catalog helpers, shallowly embedded in Lean 4.

The embedding follows `genepattern_mcp/_shared.py`, `tasks.py` and
`data.py`.  Python dictionaries are modelled as association lists,
byte strings as `List Nat` (each entry a byte value), decoded text as
`String` where the source manipulates `str`, and the opaque FastMCP
call context as a wrapper around `Nat`.  External effects (the HTTP
transport, the dynamic import machinery, the PDF text extractor) are
parameters of the embedded functions, so every embedded function is a
pure, executable Lean definition.
-/

set_option autoImplicit false

namespace GP

/-- The opaque FastMCP per-call context.  The dispatcher never inspects
it; it is only forwarded to the credential provider. -/
structure Context where
  id : Nat
deriving DecidableEq

/-- The `AuthHandler` capability from `_shared.py`: produce an API key
(or `None`) for a call context.  `get_api_key` returning `none` models
the Python method returning `None`. -/
structure AuthHandler where
  get_api_key : Context → Option String

/-- `EnvAuthHandler` from `_shared.py`, parameterised by the process
environment (an association list standing for `os.environ`): reads the
`GENEPATTERN_KEY` variable at call time. -/
def EnvAuthHandler (environ : List (String × String)) : AuthHandler :=
  ⟨fun _ => environ.lookup "GENEPATTERN_KEY"⟩

/-- A value in a Python query-parameter dict as passed to
`requests.request(params=...)`: a string, a bool, or `None`. -/
inductive PValue where
  | str (s : String)
  | bool (b : Bool)
  | none
deriving DecidableEq

/-- Python `str()` of a parameter value, as applied by `urllib`'s
`urlencode` when the HTTP stack serialises the query string:
`str(True) = "True"`, `str(False) = "False"`, `str(None) = "None"`. -/
def PValue.wireStr : PValue → String
  | .str s => s
  | .bool b => if b then "True" else "False"
  | .none => "None"

/-- Structured JSON-like values: what `response.json()` produces and
what the `json=` request argument carries. -/
inductive JsonVal where
  | null
  | bool (b : Bool)
  | num (n : Int)
  | str (s : String)
  | arr (xs : List JsonVal)
  | obj (fields : List (String × JsonVal))

/-- Python `f"Bearer {api_key}"` where `api_key : Optional[str]`:
interpolating `None` yields the text `None`. -/
def pyOptStr : Option String → String
  | some s => s
  | .none => "None"

/-- First-match association-list lookup, the semantics of reading a key
from a Python dict (keys of a dict are unique, so first match is the
binding). -/
def alookup {β : Type} (k : String) : List (String × β) → Option β
  | [] => .none
  | (k', v) :: rest => if k' = k then some v else alookup k rest

/-- Whether a Python dict (as an association list) has a key. -/
def hasKey {β : Type} (k : String) (d : List (String × β)) : Bool :=
  (alookup k d).isSome

/-- Setting one key of a Python dict: if present the value is replaced
in place (order preserved), otherwise the pair is appended. -/
def dictSet {β : Type} (d : List (String × β)) (k : String) (v : β) :
    List (String × β) :=
  if hasKey k d then
    d.map (fun p => if p.1 = k then (p.1, v) else p)
  else
    d ++ [(k, v)]

/-- Python `d.update(e)`: fold `dictSet` over the entries of `e`. -/
def dictUpdate {β : Type} (d : List (String × β)) :
    List (String × β) → List (String × β)
  | [] => d
  | (k, v) :: rest => dictUpdate (dictSet d k v) rest

/-- Does the first character list start with the second? -/
def listStarts : List Char → List Char → Bool
  | _, [] => true
  | [], _ :: _ => false
  | a :: l, b :: p => b = a && listStarts l p

/-- Does the first character list contain the second as a contiguous
run? -/
def listHasSub : List Char → List Char → Bool
  | [], p => p.isEmpty
  | a :: l, p => listStarts (a :: l) p || listHasSub l p

/-- Python `needle in haystack` on strings: substring containment. -/
def strContains (haystack needle : String) : Bool :=
  listHasSub haystack.toList needle.toList

/-- ASCII lowercasing of one character (Python `str.lower`, restricted
to the ASCII range — the only range exercised by header names and
URLs in this development). -/
def lowerChar (c : Char) : Char :=
  if 65 ≤ c.toNat ∧ c.toNat ≤ 90 then Char.ofNat (c.toNat + 32) else c

/-- ASCII lowercasing of a string. -/
def asciiLower (s : String) : String := String.mk (s.toList.map lowerChar)

/-- Python `s[:-n]`: drop the last `n` characters. -/
def strDropRight (s : String) (n : Nat) : String :=
  String.mk (s.toList.take (s.toList.length - n))

/-- Case-insensitive header lookup with a default, the semantics of
`response.headers.get(key, "")` on the `requests` case-insensitive
header dict. -/
def headersGetCI (headers : List (String × String)) (k dflt : String) :
    String :=
  match headers.find? (fun p => asciiLower p.1 = asciiLower k) with
  | some p => p.2
  | .none => dflt

/-- The base-URL configuration from `_shared.py`:
`REST_URL = f"{GENEPATTERN_URL}/rest"`. -/
def REST_URL (gpUrl : String) : String := gpUrl ++ "/rest"

/-- The default value of the `GENEPATTERN_URL` configuration. -/
def GENEPATTERN_URL_default : String := "https://cloud.genepattern.org/gp"

/-- Multipart `files=` argument: field name ↦ (file name, raw bytes). -/
def FilesArg : Type := List (String × String × List Nat)

/-- One prepared outgoing HTTP request, as handed to the HTTP stack. -/
structure HttpRequest where
  method : String
  /-- Full URL including the serialised query string, as exposed by
  `PreparedRequest.url`. -/
  url : String
  headers : List (String × String)
  /-- The query parameters handed to the HTTP stack (after the
  dispatcher's `None`-stripping). -/
  params : List (String × PValue)
  json_data : Option JsonVal
  data : Option (List Nat)
  files : Option FilesArg

/-- The observables of a `requests.Response`: status code, headers,
decoded text, raw bytes, and the outcome of calling `.json()` (`.error`
models `.json()` raising a JSON decode error, whose message is the
carried string). -/
structure HttpResponse where
  statusCode : Nat
  headers : List (String × String)
  text : String
  content : List Nat
  json : Except String JsonVal

/-- What one transport attempt produces: either a response from the
server, or a transport-level failure (DNS, connection refused,
timeout); the string is `str()` of the underlying
`requests.exceptions.RequestException`. -/
inductive TransportOutcome where
  | resp (r : HttpResponse)
  | err (msg : String)

/-- The HTTP stack, abstracted: maps a prepared request to an outcome. -/
def Transport : Type := HttpRequest → TransportOutcome

/-- `urlencode` of the query parameters, after the `requests` stack has
itself discarded `None` values; percent-escaping is omitted (identity
on every key and value occurring in this development). -/
def encodeParams (ps : List (String × PValue)) : String :=
  String.intercalate "&"
    ((ps.filter (fun kv => kv.2 ≠ PValue.none)).map
      (fun kv => kv.1 ++ "=" ++ kv.2.wireStr))

/-- The full URL of the prepared request: base ++ path, with a `?` and
the encoded query exactly when some parameter survives `None`
stripping (`requests` leaves the URL untouched for an empty dict). -/
def requestUrl (gpUrl path : String)
    (params : Option (List (String × PValue))) : String :=
  let ps := (params.getD []).filter (fun kv => kv.2 ≠ PValue.none)
  if ps.isEmpty then REST_URL gpUrl ++ path
  else REST_URL gpUrl ++ path ++ "?" ++ encodeParams ps

/-- Lines 86–89 of `_shared.py`: the default header dict. -/
def defaultHeaders (api_key : Option String) : List (String × String) :=
  [("Authorization", "Bearer " ++ pyOptStr api_key),
   ("Accept", "application/json")]

/-- Line 90: `if extra_headers: headers.update(extra_headers)`. -/
def applyExtraHeaders (headers : List (String × String)) :
    Option (List (String × String)) → List (String × String)
  | .none => headers
  | some eh => dictUpdate headers eh

/-- Lines 92–93 of `_shared.py`: strip `None`-valued query parameters. -/
def filterNoneParams (ps : List (String × PValue)) :
    List (String × PValue) :=
  ps.filter (fun kv => kv.2 ≠ PValue.none)

/-- `if params: params = {k: v for k, v in params.items() if v is not None}`
— a `None` or empty (falsy) dict is left untouched. -/
def processedParams : Option (List (String × PValue)) →
    Option (List (String × PValue))
  | .none => .none
  | some ps => if ps.isEmpty then some ps else some (filterNoneParams ps)

/-- The fixed success acknowledgment returned for HTTP 204 (line 108 of
`_shared.py`). -/
def successAck : JsonVal :=
  .obj [("status", .str "success"),
        ("message", .str "Request completed with no content.")]

/-- `Response.raise_for_status` of the `requests` library raises
`HTTPError` exactly for client errors (400–499) and server errors
(500–599); any other status, including non-standard codes ≥ 600, does
not raise. -/
def raisesForStatus (status : Nat) : Bool :=
  (400 ≤ status && status < 500) || (500 ≤ status && status < 600)

/-- The message of the exception raised in the `HTTPError` branch
(line 117 of `_shared.py`). -/
def httpErrorMessage (status : Nat) (url : String) (body : String) :
    String :=
  "HTTP Error: " ++ toString status ++ " for URL: " ++ url ++
    "\nResponse: " ++ body

/-- The message of the exception raised in the `RequestException`
branch (line 120 of `_shared.py`). -/
def requestExceptionMessage (msg : String) : String :=
  "Request Exception: " ++ msg

/-- The dispatcher's normalised return value: parsed JSON, raw text, or
raw bytes (HTTP 204 yields `json successAck`). -/
inductive RespValue where
  | json (j : JsonVal)
  | text (s : String)
  | bytes (b : List Nat)

/-- The prepared request built by `_make_request` before the single
`requests.request(...)` call (lines 85–104 of `_shared.py`). -/
def built_request (handler : AuthHandler) (gpUrl : String)
    (ctx : Context) (method path : String)
    (params : Option (List (String × PValue)))
    (json_data : Option JsonVal) (data : Option (List Nat))
    (files : Option FilesArg)
    (extra_headers : Option (List (String × String))) : HttpRequest :=
  let api_key := handler.get_api_key ctx
  let headers := applyExtraHeaders (defaultHeaders api_key) extra_headers
  let params' := processedParams params
  { method := method
    url := requestUrl gpUrl path params'
    headers := headers
    params := params'.getD []
    json_data := json_data
    data := data
    files := files }

/-- Normalisation of a received response (lines 105–120 of
`_shared.py`): `raise_for_status`, then the 204 check, then the
`Content-Type` dispatch.  A failing `.json()` call raises a
`requests` JSON decode error, which is a `RequestException` and is
therefore rewrapped by the second `except` clause. -/
def handleResponse (req : HttpRequest) (r : HttpResponse) :
    Except String RespValue :=
  if raisesForStatus r.statusCode then
    .error (httpErrorMessage r.statusCode req.url r.text)
  else if r.statusCode = 204 then
    .ok (.json successAck)
  else
    let content_type := headersGetCI r.headers "Content-Type" ""
    if strContains content_type "application/json" then
      match r.json with
      | .ok j => .ok (.json j)
      | .error e => .error (requestExceptionMessage e)
    else if strContains content_type "text/" then
      .ok (.text r.text)
    else
      .ok (.bytes r.content)

/-- `_make_request` from `_shared.py`, lines 63–120.  Returns the
outcome (`.error msg` models `raise Exception(msg)`) together with the
trace of HTTP requests actually issued (the source contains a single
`requests.request` call and no retry loop, so the trace is the one
prepared request). -/
def make_request (handler : AuthHandler) (transport : Transport)
    (gpUrl : String) (ctx : Context) (method path : String)
    (params : Option (List (String × PValue)) := .none)
    (json_data : Option JsonVal := .none)
    (data : Option (List Nat) := .none)
    (files : Option FilesArg := .none)
    (extra_headers : Option (List (String × String)) := .none) :
    Except String RespValue × List HttpRequest :=
  let req := built_request handler gpUrl ctx method path params
    json_data data files extra_headers
  match transport req with
  | .err msg => (.error (requestExceptionMessage msg), [req])
  | .resp r => (handleResponse req r, [req])

/-! ### Dynamic credential-provider installation (`set_auth_handler`) -/

/-- A Python class object as resolved by `getattr`, restricted to the
observables `set_auth_handler` uses: whether
`issubclass(cls, AuthHandler)` holds, and what `cls()` constructs. -/
structure PyClass where
  isSubclassOfAuthHandler : Bool
  instantiate : AuthHandler

/-- A loaded Python module: its attributes, each a class object. -/
structure PyModule where
  modName : String
  attrs : List (String × PyClass)

/-- Python `getattr(module, name)`; a missing attribute raises
`AttributeError` whose message is the carried string. -/
def PyModule.getattr (m : PyModule) (name : String) :
    Except String PyClass :=
  match alookup name m.attrs with
  | some cls => .ok cls
  | .none => .error ("module '" ++ m.modName ++
      "' has no attribute '" ++ name ++ "'")

/-- The dynamic import machinery, abstracted: the set of importable
modules of the process. -/
structure ImportEnv where
  modules : List (String × PyModule)

/-- `importlib.import_module`; an unresolvable path raises
`ModuleNotFoundError` (a subclass of `ImportError`) whose message is
the carried string. -/
def ImportEnv.importModule (env : ImportEnv) (path : String) :
    Except String PyModule :=
  match alookup path env.modules with
  | some m => .ok m
  | .none => .error ("No module named '" ++ path ++ "'")

/-- `class_path.rsplit('.', 1)` unpacked into two names: split at the
last dot; a string with no dot makes the unpacking raise `ValueError`
(modelled as `none`). -/
def rsplitDot (s : String) : Option (String × String) :=
  match (s.toList.reverse.span (fun c => !(c = '.'))) with
  | (_, []) => .none
  | (afterRev, _ :: beforeRev) =>
      some (String.mk beforeRev.reverse, String.mk afterRev.reverse)

/-- The message of Python's `ValueError` when unpacking a 1-element
list into two names. -/
def unpackValueErrorMessage : String :=
  "not enough values to unpack (expected 2, got 1)"

/-- Lines 53–55 of `_shared.py`: resolve a dotted class path to a class
object; any of the three steps can fail with the inner exception
message. -/
def resolveClass (env : ImportEnv) (class_path : String) :
    Except String PyClass :=
  match rsplitDot class_path with
  | .none => .error unpackValueErrorMessage
  | some (module_path, class_name) =>
    match env.importModule module_path with
    | .error e => .error e
    | .ok m => m.getattr class_name

/-- The wrapping applied by the `except (ImportError, AttributeError,
ValueError)` clause at line 60 of `_shared.py`. -/
def importWrapMessage (class_path inner : String) : String :=
  "Could not import or instantiate AuthHandler from '" ++ class_path ++
    "': " ++ inner

/-- The message of the `TypeError` raised at line 57 of `_shared.py`. -/
def notSubclassMessage (class_path : String) : String :=
  "Class '" ++ class_path ++ "' must be a subclass of 'AuthHandler'"

/-- The two exception kinds `set_auth_handler` can raise: the rewrapped
`ImportError` (line 60) and the uncaught `TypeError` (line 57 — not in
the `except` tuple, so it escapes unwrapped). -/
inductive ConfigError where
  | importError (msg : String)
  | typeError (msg : String)
deriving DecidableEq

/-- `set_auth_handler` from `_shared.py`, lines 42–60, with the global
`_auth_handler` passed as explicit state: returns the new active
handler and the raised exception, if any.  An exception propagates
before the `_auth_handler = handler_class()` assignment runs, so the
state component is the incoming handler in every failure branch. -/
def set_auth_handler (env : ImportEnv) (class_path : String)
    (current : AuthHandler) : AuthHandler × Option ConfigError :=
  match resolveClass env class_path with
  | .error e =>
      (current, some (.importError (importWrapMessage class_path e)))
  | .ok cls =>
      if cls.isSubclassOfAuthHandler then (cls.instantiate, .none)
      else (current, some (.typeError (notSubclassMessage class_path)))

/-! ### Endpoint catalog entries used by the claims -/

/-- The `params` dict built by `get_all_tasks` (`tasks.py`, lines
38–40): the `includeHidden` key is added, with the literal string
`"true"`, only when the flag is set. -/
def get_all_tasks_params (include_hidden : Bool) :
    List (String × PValue) :=
  if include_hidden then [("includeHidden", .str "true")] else []

/-- `get_all_tasks` from `tasks.py`, lines 26–41. -/
def get_all_tasks (handler : AuthHandler) (transport : Transport)
    (gpUrl : String) (ctx : Context) (include_hidden : Bool := false) :
    Except String RespValue × List HttpRequest :=
  make_request handler transport gpUrl ctx "GET" "/v1/tasks/all.json"
    (some (get_all_tasks_params include_hidden))

/-- The `params` dict built by `get_task_details` (`tasks.py`, lines
70–77): all six flags are passed as Python booleans, unconditionally. -/
def get_task_details_params (include_properties include_children
    include_eula include_support_files include_param_groups
    include_memory_settings : Bool) : List (String × PValue) :=
  [("includeProperties", .bool include_properties),
   ("includeChildren", .bool include_children),
   ("includeEula", .bool include_eula),
   ("includeSupportFiles", .bool include_support_files),
   ("includeParamGroups", .bool include_param_groups),
   ("includeMemorySettings", .bool include_memory_settings)]

/-- `get_task_details` from `tasks.py`, lines 45–80. -/
def get_task_details (handler : AuthHandler) (transport : Transport)
    (gpUrl : String) (ctx : Context) (task_name_or_lsid : String)
    (include_properties : Bool := true) (include_children : Bool := true)
    (include_eula : Bool := true) (include_support_files : Bool := true)
    (include_param_groups : Bool := true)
    (include_memory_settings : Bool := true) :
    Except String RespValue × List HttpRequest :=
  make_request handler transport gpUrl ctx "GET"
    ("/v1/tasks/" ++ task_name_or_lsid)
    (some (get_task_details_params include_properties include_children
      include_eula include_support_files include_param_groups
      include_memory_settings))

/-- `upload_file` from `data.py`, lines 108–123: a `PUT` to
`/v1/data/upload/{path}` with `params={"replace": replace}` (the raw
Python boolean) and the file content as the raw request body. -/
def upload_file (handler : AuthHandler) (transport : Transport)
    (gpUrl : String) (ctx : Context) (path : String)
    (file_content : List Nat) (replace : Bool := false) :
    Except String RespValue × List HttpRequest :=
  make_request handler transport gpUrl ctx "PUT"
    ("/v1/data/upload/" ++ path)
    (some [("replace", .bool replace)]) .none (some file_content)

/-! ### Text decoding for `get_task_documentation` -/

/-- Is a byte a UTF-8 continuation byte (`0x80`–`0xBF`)? -/
def isCont (b : Nat) : Bool := 0x80 ≤ b && b ≤ 0xBF

/-- Admissible second byte of a 3-byte UTF-8 sequence: the ranges that
exclude overlong encodings (`0xE0`) and surrogates (`0xED`). -/
def utf8Second3Ok (b b1 : Nat) : Bool :=
  if b = 0xE0 then 0xA0 ≤ b1 && b1 ≤ 0xBF
  else if b = 0xED then 0x80 ≤ b1 && b1 ≤ 0x9F
  else isCont b1

/-- Admissible second byte of a 4-byte UTF-8 sequence: the ranges that
exclude overlong encodings (`0xF0`) and code points above `0x10FFFF`
(`0xF4`). -/
def utf8Second4Ok (b b1 : Nat) : Bool :=
  if b = 0xF0 then 0x90 ≤ b1 && b1 ≤ 0xBF
  else if b = 0xF4 then 0x80 ≤ b1 && b1 ≤ 0x8F
  else isCont b1

/-- Strict UTF-8 decoding, the semantics of Python's
`bytes.decode("utf-8")`: rejects invalid start bytes, truncated
sequences, overlong encodings, surrogates and code points above
`0x10FFFF`; `some cps` is the decoded code-point sequence, `none`
models `UnicodeDecodeError`. -/
def utf8Decode : List Nat → Option (List Nat)
  | [] => some []
  | b :: rest =>
    if b ≤ 0x7F then (utf8Decode rest).map (fun t => b :: t)
    else if 0xC2 ≤ b && b ≤ 0xDF then
      match rest with
      | b1 :: rest2 =>
        if isCont b1 then
          (utf8Decode rest2).map
            (fun t => ((b - 0xC0) * 0x40 + (b1 - 0x80)) :: t)
        else .none
      | [] => .none
    else if 0xE0 ≤ b && b ≤ 0xEF then
      match rest with
      | b1 :: b2 :: rest3 =>
        if utf8Second3Ok b b1 && isCont b2 then
          (utf8Decode rest3).map
            (fun t => ((b - 0xE0) * 0x1000 + (b1 - 0x80) * 0x40 +
              (b2 - 0x80)) :: t)
        else .none
      | _ => .none
    else if 0xF0 ≤ b && b ≤ 0xF4 then
      match rest with
      | b1 :: b2 :: b3 :: rest4 =>
        if utf8Second4Ok b b1 && isCont b2 && isCont b3 then
          (utf8Decode rest4).map
            (fun t => ((b - 0xF0) * 0x40000 + (b1 - 0x80) * 0x1000 +
              (b2 - 0x80) * 0x40 + (b3 - 0x80)) :: t)
        else .none
      | _ => .none
    else .none

/-- Python's `bytes.decode("latin-1")`: every byte maps to the code
point of the same value; total, it can never fail. -/
def latin1Decode (b : List Nat) : List Nat := b

/-- Lines 259–264 of `tasks.py`: decode as UTF-8, and on
`UnicodeDecodeError` (and only then) fall back to Latin-1. -/
def decodeDocText (b : List Nat) : List Nat :=
  match utf8Decode b with
  | some cps => cps
  | .none => latin1Decode b

/-! ### `get_task_documentation` -/

/-- One entry of the `all_modules` list, restricted to the keys
`get_task_documentation` reads via `.get` (absent key ↦ `none`). -/
structure ModuleEntry where
  name : Option String
  lsid : Option String
  documentation : Option String
  documentation_mimetype : Option String

/-- Python falsiness of an optional string: `None` and `""` are falsy. -/
def pyFalsyStr : Option String → Bool
  | .none => true
  | some s => s.isEmpty

/-- Lines 210–214 of `tasks.py`: the first module whose `name` or
`lsid` equals the requested identifier (`.get` of an absent key is
`None`, and `None == s` is false). -/
def findModule (module_list : List ModuleEntry)
    (task_name_or_lsid : String) : Option ModuleEntry :=
  module_list.find? (fun m =>
    m.name == some task_name_or_lsid || m.lsid == some task_name_or_lsid)

/-- Does the string end with the given suffix? -/
def strEndsWith (s suf : String) : Bool :=
  listStarts s.toList.reverse suf.toList.reverse

/-- Lines 229–231 of `tasks.py`: when the module record carries no
(truthy) MIME type, infer `application/pdf` from a `.pdf` URL suffix
(case-insensitive) and `text/html` otherwise. -/
def effectiveMimetype (doc_url : String) (mt : Option String) : String :=
  if pyFalsyStr mt then
    if strEndsWith (asciiLower doc_url) ".pdf" then "application/pdf"
    else "text/html"
  else mt.getD ""

/-- External effects of the documentation fetch, abstracted:
`fetch url` is the unauthenticated `requests.get` of lines 239–241
(`none` models any `RequestException`, including the `HTTPError` from
`raise_for_status`; `some bytes` is `response.content`), and
`pdfExtract bytes` is the pypdfium2 per-page text extraction of lines
252–253 (`none` models the extraction raising; `some pages` is the
extracted text of each page, in page order, as code points). -/
structure DocOracles where
  fetch : String → Option (List Nat)
  pdfExtract : List Nat → Option (List (List Nat))

/-- `get_task_documentation` from `tasks.py`, lines 187–267, from the
point where the module list is in hand: the upstream dispatch of lines
199–207 (`get_all_tasks` plus the `all_modules` key check) is
abstracted to the `module_list` argument, which stands for
`all_tasks_response['all_modules']`.  The result is the documentation
text as code points; `none` models every `return None` branch (the
source raises nothing: each local failure is caught and reported as
absence). -/
def get_task_documentation (gpUrl : String) (oracles : DocOracles)
    (module_list : List ModuleEntry) (task_name_or_lsid : String) :
    Option (List Nat) :=
  match findModule module_list task_name_or_lsid with
  | .none => .none
  | some target =>
    if pyFalsyStr target.documentation then .none
    else
      let doc_url := target.documentation.getD ""
      let doc_mimetype :=
        effectiveMimetype doc_url target.documentation_mimetype
      -- full_url = f"{GENEPATTERN_URL[:-3]}{doc_url}" (line 235)
      match oracles.fetch (strDropRight gpUrl 3 ++ doc_url) with
      | .none => .none
      | some doc_bytes =>
        if strContains doc_mimetype "pdf" then
          match oracles.pdfExtract doc_bytes with
          | some pages => some (List.intercalate [10] pages)
          | .none => .none
        else if strContains doc_mimetype "text" ||
            strContains doc_mimetype "html" then
          some (decodeDocText doc_bytes)
        else .none

/-! ### Helper lemmas about the dict and parameter model -/

theorem processedParams_some (ps : List (String × PValue)) :
    processedParams (some ps) = some (filterNoneParams ps) := by
  cases ps <;> simp [processedParams, filterNoneParams]

theorem mem_filterNoneParams {ps : List (String × PValue)}
    {kv : String × PValue} :
    kv ∈ filterNoneParams ps ↔ kv ∈ ps ∧ kv.2 ≠ PValue.none := by
  simp [filterNoneParams, List.mem_filter]

theorem alookup_eq_none_of_not_mem {β : Type} (k : String)
    (e : List (String × β)) (h : k ∉ e.map Prod.fst) :
    alookup k e = .none := by
  induction e with
  | nil => rfl
  | cons p rest ih =>
    obtain ⟨k1, v1⟩ := p
    simp only [List.map_cons, List.mem_cons, not_or] at h
    simp [alookup, Ne.symm h.1, ih h.2]

theorem assoc_value_unique {β : Type} {ps : List (String × β)}
    (h : (ps.map Prod.fst).Nodup) {k : String} {a b : β}
    (ha : (k, a) ∈ ps) (hb : (k, b) ∈ ps) : a = b := by
  induction ps with
  | nil => cases ha
  | cons p rest ih =>
    obtain ⟨k1, v1⟩ := p
    simp only [List.map_cons, List.nodup_cons] at h
    rcases List.mem_cons.mp ha with ha1 | ha2 <;>
      rcases List.mem_cons.mp hb with hb1 | hb2
    · injection ha1 with hk hv
      injection hb1 with hk2 hv2
      rw [hv, hv2]
    · injection ha1 with hk hv
      rw [← hk] at h
      exact absurd (List.mem_map_of_mem Prod.fst hb2) h.1
    · injection hb1 with hk hv
      rw [← hk] at h
      exact absurd (List.mem_map_of_mem Prod.fst ha2) h.1
    · exact ih h.2 ha2 hb2

theorem alookup_map_replace {β : Type} (d : List (String × β))
    (k k' : String) (v : β) :
    alookup k' (d.map (fun p => if p.1 = k then (p.1, v) else p)) =
      if k' = k then (alookup k' d).map (fun _ => v) else alookup k' d := by
  induction d with
  | nil => simp [alookup]
  | cons p rest ih =>
    obtain ⟨k1, v1⟩ := p
    simp only [List.map_cons]
    by_cases h1 : k1 = k
    · subst h1
      simp only [if_pos rfl]
      by_cases h2 : k1 = k'
      · subst h2
        simp [alookup, ih]
      · simp [alookup, Ne.symm h2, h2, ih]
    · simp only [if_neg h1]
      by_cases h2 : k1 = k'
      · subst h2
        simp [alookup, h1]
      · simp [alookup, h2, ih]

theorem alookup_append {β : Type} (k : String) (d e : List (String × β)) :
    alookup k (d ++ e) =
      match alookup k d with
      | some v => some v
      | .none => alookup k e := by
  induction d with
  | nil => simp [alookup]
  | cons p rest ih =>
    obtain ⟨k1, v1⟩ := p
    by_cases h : k1 = k <;> simp [alookup, h, ih]

theorem alookup_dictSet_self {β : Type} (d : List (String × β))
    (k : String) (v : β) : alookup k (dictSet d k v) = some v := by
  unfold dictSet
  by_cases h : hasKey k d
  · rw [if_pos h, alookup_map_replace, if_pos rfl]
    unfold hasKey at h
    cases hd : alookup k d with
    | none => rw [hd] at h; simp at h
    | some w => simp
  · rw [if_neg h, alookup_append]
    unfold hasKey at h
    cases hd : alookup k d with
    | none => simp [alookup]
    | some w => rw [hd] at h; simp at h

theorem alookup_dictSet_other {β : Type} (d : List (String × β))
    (k k' : String) (v : β) (h : k' ≠ k) :
    alookup k' (dictSet d k v) = alookup k' d := by
  unfold dictSet
  by_cases hk : hasKey k d
  · rw [if_pos hk, alookup_map_replace, if_neg h]
  · rw [if_neg hk, alookup_append]
    cases hd : alookup k' d with
    | none => simp [alookup, Ne.symm h]
    | some w => simp

theorem alookup_dictUpdate {β : Type} (d e : List (String × β))
    (k : String) (he : (e.map Prod.fst).Nodup) :
    alookup k (dictUpdate d e) =
      match alookup k e with
      | some v => some v
      | .none => alookup k d := by
  induction e generalizing d with
  | nil => simp [dictUpdate, alookup]
  | cons p rest ih =>
    obtain ⟨k1, v1⟩ := p
    simp only [List.map_cons, List.nodup_cons] at he
    obtain ⟨hk1, hrest⟩ := he
    simp only [dictUpdate]
    rw [ih _ hrest]
    by_cases h : k1 = k
    · subst h
      rw [alookup_eq_none_of_not_mem _ _ hk1]
      simp [alookup, alookup_dictSet_self]
    · rw [alookup_dictSet_other _ _ _ _ (Ne.symm h)]
      cases hr : alookup k rest <;> simp [alookup, h, hr]

theorem bool_param_ne_nonePV (b : Bool) : PValue.bool b ≠ PValue.none :=
  fun h => PValue.noConfusion h

/-! ### Concrete fixtures used by witnesses and counterexamples -/

/-- A call context. -/
def cexCtx : Context := ⟨0⟩

/-- A credential provider whose key is unset (`get_api_key` returns
`None`). -/
def cexHandler : AuthHandler := ⟨fun _ => .none⟩

/-- A transport that always fails before any response arrives. -/
def errTransport : Transport := fun _ => .err "connection refused"

/-- A transport that always answers with the given response. -/
def respTransport (r : HttpResponse) : Transport := fun _ => .resp r

/-- A 204 No Content response. -/
def resp204 : HttpResponse :=
  ⟨204, [], "", [], .error "Expecting value: line 1 column 1 (char 0)"⟩

/-- A 500 response with a diagnostic body. -/
def resp500 : HttpResponse :=
  ⟨500, [], "Internal Server Error", [],
   .error "Expecting value: line 1 column 1 (char 0)"⟩

/-- A response with the non-standard status 600 and an opaque body. -/
def resp600 : HttpResponse :=
  ⟨600, [("Content-Type", "")], "boom", [1, 2],
   .error "Expecting value: line 1 column 1 (char 0)"⟩

/-! ### Claims -/

/-- **C1** (amended): for every dispatch via `_make_request`, if the
remote responds with an HTTP status in the 400–599 range, exactly one
dispatch error is raised and its message is exactly
`"HTTP Error: <status> for URL: <url>\nResponse: <body>"` — it carries
the exact status code, the full request URL, and the response body
text verbatim; if the request never gets a response, a distinct
dispatch error is raised whose message is
`"Request Exception: <transport message>"`; in both cases the trace of
issued HTTP requests is the single prepared request — no retry.  (The
un-amended claim said "status ≥ 400"; `raise_for_status` only raises
for 400–599, so a non-standard status ≥ 600 flows into normal response
handling — see the counterexample.) -/
theorem c1_dispatch_failure_mapping
    (handler : AuthHandler) (transport : Transport) (gpUrl : String)
    (ctx : Context) (method path : String)
    (params : Option (List (String × PValue)))
    (json_data : Option JsonVal) (data : Option (List Nat))
    (files : Option FilesArg)
    (extra_headers : Option (List (String × String))) :
    (∀ r : HttpResponse,
      transport (built_request handler gpUrl ctx method path params
        json_data data files extra_headers) = .resp r →
      400 ≤ r.statusCode → r.statusCode < 600 →
      (make_request handler transport gpUrl ctx method path params
        json_data data files extra_headers).1 =
        .error (httpErrorMessage r.statusCode
          (built_request handler gpUrl ctx method path params
            json_data data files extra_headers).url r.text)) ∧
    (∀ msg : String,
      transport (built_request handler gpUrl ctx method path params
        json_data data files extra_headers) = .err msg →
      (make_request handler transport gpUrl ctx method path params
        json_data data files extra_headers).1 =
        .error (requestExceptionMessage msg)) ∧
    (make_request handler transport gpUrl ctx method path params
        json_data data files extra_headers).2 =
      [built_request handler gpUrl ctx method path params json_data data
        files extra_headers] := by
  refine ⟨?_, ?_, ?_⟩
  · intro r hr h1 h2
    have hraise : raisesForStatus r.statusCode = true := by
      simp only [raisesForStatus, Bool.or_eq_true, Bool.and_eq_true,
        decide_eq_true_eq]
      omega
    simp only [make_request, hr, handleResponse, hraise, if_true]
  · intro msg hmsg
    simp only [make_request, hmsg]
  · simp only [make_request]
    cases transport (built_request handler gpUrl ctx method path params
      json_data data files extra_headers) <;> rfl

/-- **C1** witness: a mocked 500 response produces exactly the
remote-rejection error carrying status, URL and body. -/
theorem c1_witness :
    (make_request cexHandler (respTransport resp500)
        GENEPATTERN_URL_default cexCtx "GET" "/v1/jobs/12345/status.json"
        .none .none .none .none .none).1 =
      .error (httpErrorMessage 500
        (built_request cexHandler GENEPATTERN_URL_default cexCtx "GET"
          "/v1/jobs/12345/status.json" .none .none .none .none .none).url
        "Internal Server Error") :=
  (c1_dispatch_failure_mapping cexHandler (respTransport resp500)
      GENEPATTERN_URL_default cexCtx "GET" "/v1/jobs/12345/status.json"
      .none .none .none .none .none).1 resp500 rfl (by decide) (by decide)

/-- **C1** counterexample: the claim as stated ("an HTTP status ≥ 400
raises a dispatch error") is false — a response with the non-standard
status 600 does not make `raise_for_status` raise, so the dispatcher
returns the raw bytes instead of raising. -/
theorem c1_counterexample :
    400 ≤ resp600.statusCode ∧
    (make_request cexHandler (respTransport resp600)
        GENEPATTERN_URL_default cexCtx "GET" "/v1/tasks/all.json"
        .none .none .none .none .none).1 = .ok (.bytes [1, 2]) :=
  ⟨by decide, rfl⟩

/-- **C2**: for every dispatch given a query-parameter mapping (with
the keys unique, as they are in a Python dict), a key bound to `None`
does not occur among the parameters handed to the HTTP stack, while
every key with a non-`None` value is transmitted with that value; and
the single issued request is the prepared one. -/
theorem c2_none_query_params_stripped
    (handler : AuthHandler) (transport : Transport) (gpUrl : String)
    (ctx : Context) (method path : String)
    (json_data : Option JsonVal) (data : Option (List Nat))
    (files : Option FilesArg)
    (extra_headers : Option (List (String × String)))
    (ps : List (String × PValue)) (hps : (ps.map Prod.fst).Nodup)
    (k : String) :
    ((k, PValue.none) ∈ ps →
      k ∉ (built_request handler gpUrl ctx method path (some ps)
        json_data data files extra_headers).params.map Prod.fst) ∧
    (∀ v : PValue, (k, v) ∈ ps → v ≠ PValue.none →
      (k, v) ∈ (built_request handler gpUrl ctx method path (some ps)
        json_data data files extra_headers).params) ∧
    (make_request handler transport gpUrl ctx method path (some ps)
        json_data data files extra_headers).2 =
      [built_request handler gpUrl ctx method path (some ps) json_data
        data files extra_headers] := by
  have hbp : (built_request handler gpUrl ctx method path (some ps)
      json_data data files extra_headers).params = filterNoneParams ps := by
    simp [built_request, processedParams_some]
  refine ⟨?_, ?_, ?_⟩
  · intro hmem hk
    rw [hbp] at hk
    obtain ⟨⟨k2, v⟩, hv, hfst⟩ := List.mem_map.mp hk
    simp only at hfst
    subst hfst
    obtain ⟨hvps, hvne⟩ := mem_filterNoneParams.mp hv
    exact hvne (assoc_value_unique hps hvps hmem)
  · intro v hv hne
    rw [hbp]
    exact mem_filterNoneParams.mpr ⟨hv, hne⟩
  · simp only [make_request]
    cases transport (built_request handler gpUrl ctx method path
      (some ps) json_data data files extra_headers) <;> rfl

/-- **C2** witness: in a dispatch with params
`{"a": "x", "b": None}`, the key `"b"` is absent from the transmitted
parameters and `("a", "x")` is present. -/
theorem c2_witness :
    ("b" ∉ (built_request cexHandler GENEPATTERN_URL_default cexCtx
        "GET" "/p" (some [("a", PValue.str "x"), ("b", PValue.none)])
        .none .none .none .none).params.map Prod.fst) ∧
    (("a", PValue.str "x") ∈ (built_request cexHandler
        GENEPATTERN_URL_default cexCtx "GET" "/p"
        (some [("a", PValue.str "x"), ("b", PValue.none)])
        .none .none .none .none).params) :=
  ⟨(c2_none_query_params_stripped cexHandler errTransport
      GENEPATTERN_URL_default cexCtx "GET" "/p" .none .none .none .none
      [("a", PValue.str "x"), ("b", PValue.none)] (by decide) "b").1
      (by decide),
   (c2_none_query_params_stripped cexHandler errTransport
      GENEPATTERN_URL_default cexCtx "GET" "/p" .none .none .none .none
      [("a", PValue.str "x"), ("b", PValue.none)] (by decide) "a").2.1
      (PValue.str "x") (by decide) (by decide)⟩

/-- **C3**: for every dispatch whose response has status < 400, the
result is determined in this order: status 204 yields the fixed
success-acknowledgment value regardless of request shape; otherwise a
`Content-Type` containing `application/json` yields the parsed
structured value; otherwise a `Content-Type` containing `text/` yields
the raw text; otherwise the raw response bytes. -/
theorem c3_response_normalization
    (handler : AuthHandler) (transport : Transport) (gpUrl : String)
    (ctx : Context) (method path : String)
    (params : Option (List (String × PValue)))
    (json_data : Option JsonVal) (data : Option (List Nat))
    (files : Option FilesArg)
    (extra_headers : Option (List (String × String)))
    (r : HttpResponse)
    (hr : transport (built_request handler gpUrl ctx method path params
      json_data data files extra_headers) = .resp r)
    (hstatus : r.statusCode < 400) :
    (r.statusCode = 204 →
      (make_request handler transport gpUrl ctx method path params
        json_data data files extra_headers).1 = .ok (.json successAck)) ∧
    (r.statusCode ≠ 204 →
      strContains (headersGetCI r.headers "Content-Type" "")
        "application/json" = true →
      ∀ j, r.json = .ok j →
      (make_request handler transport gpUrl ctx method path params
        json_data data files extra_headers).1 = .ok (.json j)) ∧
    (r.statusCode ≠ 204 →
      strContains (headersGetCI r.headers "Content-Type" "")
        "application/json" = false →
      strContains (headersGetCI r.headers "Content-Type" "")
        "text/" = true →
      (make_request handler transport gpUrl ctx method path params
        json_data data files extra_headers).1 = .ok (.text r.text)) ∧
    (r.statusCode ≠ 204 →
      strContains (headersGetCI r.headers "Content-Type" "")
        "application/json" = false →
      strContains (headersGetCI r.headers "Content-Type" "")
        "text/" = false →
      (make_request handler transport gpUrl ctx method path params
        json_data data files extra_headers).1 = .ok (.bytes r.content)) := by
  have hraise : raisesForStatus r.statusCode = false := by
    cases h : raisesForStatus r.statusCode with
    | false => rfl
    | true =>
      exfalso
      simp only [raisesForStatus, Bool.or_eq_true, Bool.and_eq_true,
        decide_eq_true_eq] at h
      omega
  refine ⟨?_, ?_, ?_, ?_⟩
  · intro h204
    simp [make_request, hr, handleResponse, h204, raisesForStatus]
  · intro h204 hct j hj
    simp [make_request, hr, handleResponse, hraise, h204, hct, hj]
  · intro h204 hct htext
    simp [make_request, hr, handleResponse, hraise, h204, hct, htext]
  · intro h204 hct htext
    simp [make_request, hr, handleResponse, hraise, h204, hct, htext]

/-- **C3** witness: a 204 response to a `DELETE` yields the fixed
success acknowledgment. -/
theorem c3_witness :
    (make_request cexHandler (respTransport resp204)
        GENEPATTERN_URL_default cexCtx "DELETE" "/v1/data/delete/x"
        .none .none .none .none .none).1 = .ok (.json successAck) :=
  (c3_response_normalization cexHandler (respTransport resp204)
      GENEPATTERN_URL_default cexCtx "DELETE" "/v1/data/delete/x"
      .none .none .none .none .none resp204 rfl (by decide)).1 rfl

/-- The default handler installed at module load
(`_auth_handler = EnvAuthHandler()`), here over an empty environment. -/
def defaultHandler : AuthHandler := EnvAuthHandler []

/-- A class object that is a proper `AuthHandler` subclass. -/
def goodClass : PyClass := ⟨true, ⟨fun _ => some "KEY"⟩⟩

/-- A class object that is not an `AuthHandler` subclass. -/
def badClass : PyClass := ⟨false, ⟨fun _ => .none⟩⟩

/-- A sample importable module exposing both classes. -/
def sampleModule : PyModule :=
  ⟨"my_module", [("Good", goodClass), ("Bad", badClass)]⟩

/-- A sample import environment with the one module. -/
def sampleEnv : ImportEnv := ⟨[("my_module", sampleModule)]⟩

/-- **C4**: for every class-path string, `set_auth_handler` either
installs the instantiation of a resolved, validated `AuthHandler`
subclass as the active handler and raises nothing, or raises a
configuration error — the rewrapped `ImportError` whenever the name
cannot be resolved, the `TypeError` when the resolved class is not an
`AuthHandler` subclass.  A success outcome can only arise from a
successfully resolved and validated class, never from silently keeping
or reinstalling the previous/default handler on a bad reference. -/
theorem c4_set_auth_handler_installs_or_raises (env : ImportEnv)
    (class_path : String) (current : AuthHandler) :
    (∀ h : AuthHandler,
      set_auth_handler env class_path current = (h, .none) →
      ∃ cls : PyClass, resolveClass env class_path = .ok cls ∧
        cls.isSubclassOfAuthHandler = true ∧ h = cls.instantiate) ∧
    (∀ e : String, resolveClass env class_path = .error e →
      set_auth_handler env class_path current =
        (current, some (.importError (importWrapMessage class_path e)))) ∧
    (∀ cls : PyClass, resolveClass env class_path = .ok cls →
      cls.isSubclassOfAuthHandler = false →
      set_auth_handler env class_path current =
        (current, some (.typeError (notSubclassMessage class_path)))) := by
  refine ⟨?_, ?_, ?_⟩
  · intro h hset
    cases hres : resolveClass env class_path with
    | error e => simp [set_auth_handler, hres] at hset
    | ok cls =>
      cases hsub : cls.isSubclassOfAuthHandler with
      | false => simp [set_auth_handler, hres, hsub] at hset
      | true =>
        refine ⟨cls, rfl, hsub, ?_⟩
        simp only [set_auth_handler, hres, hsub, if_true] at hset
        exact (Prod.mk.injEq _ _ _ _ ▸ hset).1.symm
  · intro e hres
    simp [set_auth_handler, hres]
  · intro cls hres hsub
    simp [set_auth_handler, hres, hsub]

/-- **C4** witness: resolving `my_module.Good` installs the new
handler; resolving `my_module.Bad` raises the `TypeError`. -/
theorem c4_witness :
    (∃ cls : PyClass, resolveClass sampleEnv "my_module.Good" = .ok cls ∧
      cls.isSubclassOfAuthHandler = true ∧
      (set_auth_handler sampleEnv "my_module.Good" defaultHandler).1 =
        cls.instantiate) ∧
    set_auth_handler sampleEnv "my_module.Bad" defaultHandler =
      (defaultHandler,
       some (.typeError (notSubclassMessage "my_module.Bad"))) :=
  ⟨(c4_set_auth_handler_installs_or_raises sampleEnv "my_module.Good"
      defaultHandler).1 _ rfl,
   (c4_set_auth_handler_installs_or_raises sampleEnv "my_module.Bad"
      defaultHandler).2.2 badClass rfl rfl⟩

/-- **C9**: whenever `set_auth_handler` fails — class path without a
dot, unresolvable module or attribute, or a resolved class that is not
an `AuthHandler` subclass — the previously active handler stays
installed unchanged; the no-dot failure raises the rewrapped
`ImportError`, while the not-a-subclass failure escapes as the
unwrapped `TypeError` (a constructor distinct from `importError`,
since `TypeError` is not in the `except` tuple). -/
theorem c9_failed_set_auth_handler_keeps_handler (env : ImportEnv)
    (class_path : String) (current : AuthHandler) :
    (∀ (h : AuthHandler) (e : ConfigError),
      set_auth_handler env class_path current = (h, some e) →
      h = current) ∧
    (rsplitDot class_path = .none →
      set_auth_handler env class_path current =
        (current, some (.importError
          (importWrapMessage class_path unpackValueErrorMessage)))) ∧
    (∀ e : String, resolveClass env class_path = .error e →
      set_auth_handler env class_path current =
        (current, some (.importError (importWrapMessage class_path e)))) ∧
    (∀ cls : PyClass, resolveClass env class_path = .ok cls →
      cls.isSubclassOfAuthHandler = false →
      set_auth_handler env class_path current =
        (current, some (.typeError (notSubclassMessage class_path)))) ∧
    (∀ m m' : String,
      ConfigError.typeError m ≠ ConfigError.importError m') := by
  refine ⟨?_, ?_, ?_, ?_, ?_⟩
  · intro h e hset
    cases hres : resolveClass env class_path with
    | error msg =>
      simp only [set_auth_handler, hres] at hset
      exact (Prod.mk.injEq _ _ _ _ ▸ hset).1.symm
    | ok cls =>
      cases hsub : cls.isSubclassOfAuthHandler with
      | false =>
        simp only [set_auth_handler, hres, hsub, Bool.false_eq_true,
          if_false] at hset
        exact (Prod.mk.injEq _ _ _ _ ▸ hset).1.symm
      | true => simp [set_auth_handler, hres, hsub] at hset
  · intro hdot
    simp [set_auth_handler, resolveClass, hdot]
  · intro e hres
    simp [set_auth_handler, hres]
  · intro cls hres hsub
    simp [set_auth_handler, hres, hsub]
  · intro m m' h
    exact ConfigError.noConfusion h

/-- **C9** witness: a dotless path, a missing attribute, and a
non-subclass each leave the default handler installed, with the
documented error kinds. -/
theorem c9_witness :
    ((set_auth_handler sampleEnv "nodot" defaultHandler).1 =
      defaultHandler) ∧
    (set_auth_handler sampleEnv "nodot" defaultHandler =
      (defaultHandler, some (.importError
        (importWrapMessage "nodot" unpackValueErrorMessage)))) ∧
    (set_auth_handler sampleEnv "my_module.Missing" defaultHandler =
      (defaultHandler, some (.importError (importWrapMessage
        "my_module.Missing"
        "module 'my_module' has no attribute 'Missing'")))) ∧
    (set_auth_handler sampleEnv "my_module.Bad" defaultHandler =
      (defaultHandler,
       some (.typeError (notSubclassMessage "my_module.Bad")))) :=
  ⟨(c9_failed_set_auth_handler_keeps_handler sampleEnv "nodot"
      defaultHandler).1 defaultHandler
      (.importError (importWrapMessage "nodot" unpackValueErrorMessage))
      rfl,
   (c9_failed_set_auth_handler_keeps_handler sampleEnv "nodot"
      defaultHandler).2.1 rfl,
   (c9_failed_set_auth_handler_keeps_handler sampleEnv
      "my_module.Missing" defaultHandler).2.2.1
      "module 'my_module' has no attribute 'Missing'" rfl,
   (c9_failed_set_auth_handler_keeps_handler sampleEnv "my_module.Bad"
      defaultHandler).2.2.2.1 badClass rfl rfl⟩

/-- **C5**: every dispatch carries `Authorization: Bearer <key>` (where
`<key>` is the provider's answer for this context, the text `None`
when the provider returns none — no "no credential" failure is raised,
the request is still issued) and `Accept: application/json`, each
overridden by a matching key in `extra_headers` when supplied. -/
theorem c5_default_headers_and_overrides
    (handler : AuthHandler) (transport : Transport) (gpUrl : String)
    (ctx : Context) (method path : String)
    (params : Option (List (String × PValue)))
    (json_data : Option JsonVal) (data : Option (List Nat))
    (files : Option FilesArg) (eh : List (String × String))
    (he : (eh.map Prod.fst).Nodup) :
    (alookup "Authorization"
        (built_request handler gpUrl ctx method path params json_data
          data files (some eh)).headers =
      (match alookup "Authorization" eh with
       | some v => some v
       | .none =>
           some ("Bearer " ++ pyOptStr (handler.get_api_key ctx)))) ∧
    (alookup "Accept"
        (built_request handler gpUrl ctx method path params json_data
          data files (some eh)).headers =
      (match alookup "Accept" eh with
       | some v => some v
       | .none => some "application/json")) ∧
    (alookup "Authorization"
        (built_request handler gpUrl ctx method path params json_data
          data files .none).headers =
      some ("Bearer " ++ pyOptStr (handler.get_api_key ctx))) ∧
    (alookup "Accept"
        (built_request handler gpUrl ctx method path params json_data
          data files .none).headers = some "application/json") ∧
    ((make_request handler transport gpUrl ctx method path params
        json_data data files (some eh)).2 =
      [built_request handler gpUrl ctx method path params json_data
        data files (some eh)]) := by
  have hb : (built_request handler gpUrl ctx method path params
      json_data data files (some eh)).headers =
      dictUpdate (defaultHeaders (handler.get_api_key ctx)) eh := rfl
  refine ⟨?_, ?_, ?_, ?_, ?_⟩
  · rw [hb, alookup_dictUpdate _ _ _ he]
    cases alookup "Authorization" eh <;>
      simp [alookup, defaultHeaders]
  · rw [hb, alookup_dictUpdate _ _ _ he]
    cases alookup "Accept" eh <;>
      simp [alookup, defaultHeaders]
  · simp [built_request, applyExtraHeaders, defaultHeaders, alookup]
  · simp [built_request, applyExtraHeaders, defaultHeaders, alookup]
  · simp only [make_request]
    cases transport (built_request handler gpUrl ctx method path params
      json_data data files (some eh)) <;> rfl

/-- **C5** witness: with an unset provider key and no overrides the
request carries `Authorization: Bearer None`; an
`Authorization` entry in `extra_headers` replaces the default. -/
theorem c5_witness :
    (alookup "Authorization"
        (built_request cexHandler GENEPATTERN_URL_default cexCtx "GET"
          "/p" .none .none .none .none (some [])).headers =
      some "Bearer None") ∧
    (alookup "Authorization"
        (built_request cexHandler GENEPATTERN_URL_default cexCtx "GET"
          "/p" .none .none .none .none
          (some [("Authorization", "Bearer abc")])).headers =
      some "Bearer abc") :=
  ⟨(c5_default_headers_and_overrides cexHandler errTransport
      GENEPATTERN_URL_default cexCtx "GET" "/p" .none .none .none .none
      [] (by decide)).1,
   (c5_default_headers_and_overrides cexHandler errTransport
      GENEPATTERN_URL_default cexCtx "GET" "/p" .none .none .none .none
      [("Authorization", "Bearer abc")] (by decide)).1⟩

/-- A module entry with PDF documentation. -/
def docModulePdf : ModuleEntry :=
  ⟨some "ModA", some "urn:lsid:a", some "/docs/a.pdf",
   some "application/pdf"⟩

/-- Oracles for the PDF scenario: the fetch succeeds and the extractor
yields the pages `"Hi"` and `"B"` (as code points), in order. -/
def docOraclesPdf : DocOracles :=
  ⟨fun _ => some [37], fun _ => some [[72, 105], [66]]⟩

/-- A module entry with HTML documentation. -/
def docModuleText : ModuleEntry :=
  ⟨some "ModB", some "urn:lsid:b", some "/docs/b.html",
   some "text/html"⟩

/-- Oracles for the text scenario: the fetch yields bytes that are not
valid UTF-8 (`0xFF` is never a UTF-8 start byte). -/
def docOraclesText : DocOracles :=
  ⟨fun _ => some [255, 65], fun _ => .none⟩

/-- **C6**: in `get_task_documentation`, once the target module is
located (with a truthy documentation URL and a successful fetch): a
media type containing `pdf` makes the per-page extracted texts be
joined with newline (code point 10) separators in page order and
returned; a media type containing none of `pdf`, `text`, `html` makes
the function return absence (`None`) — the unsupported-type terminal
outcome, not a raised error. -/
theorem c6_documentation_pdf_join_and_unsupported
    (gpUrl : String) (oracles : DocOracles)
    (module_list : List ModuleEntry) (task : String) (m : ModuleEntry)
    (doc_bytes : List Nat)
    (hfind : findModule module_list task = some m)
    (hurl : pyFalsyStr m.documentation = false)
    (hfetch : oracles.fetch
      (strDropRight gpUrl 3 ++ m.documentation.getD "") = some doc_bytes) :
    (∀ pages : List (List Nat),
      strContains (effectiveMimetype (m.documentation.getD "")
        m.documentation_mimetype) "pdf" = true →
      oracles.pdfExtract doc_bytes = some pages →
      get_task_documentation gpUrl oracles module_list task =
        some (List.intercalate [10] pages)) ∧
    (strContains (effectiveMimetype (m.documentation.getD "")
        m.documentation_mimetype) "pdf" = false →
      strContains (effectiveMimetype (m.documentation.getD "")
        m.documentation_mimetype) "text" = false →
      strContains (effectiveMimetype (m.documentation.getD "")
        m.documentation_mimetype) "html" = false →
      get_task_documentation gpUrl oracles module_list task = .none) := by
  refine ⟨?_, ?_⟩
  · intro pages hpdf hparse
    simp [get_task_documentation, hfind, hurl, hfetch, hpdf, hparse]
  · intro hpdf htext hhtml
    simp [get_task_documentation, hfind, hurl, hfetch, hpdf, htext,
      hhtml]

/-- **C6** witness: a PDF-typed module's documentation is the pages
`"Hi"` and `"B"` joined by a newline. -/
theorem c6_witness :
    get_task_documentation GENEPATTERN_URL_default docOraclesPdf
      [docModulePdf] "ModA" = some [72, 105, 10, 66] :=
  (c6_documentation_pdf_join_and_unsupported GENEPATTERN_URL_default
      docOraclesPdf [docModulePdf] "ModA" docModulePdf [37] rfl rfl
      rfl).1 [[72, 105], [66]] rfl rfl

/-- **C7**: in `get_task_documentation`, for a located module whose
media type is a text/HTML type (and not a PDF type), the fetched bytes
are decoded and returned — the decode step always yields a value
(never an error): the UTF-8 decoding is used when it succeeds, and
exactly when it fails the bytes are decoded as Latin-1 instead. -/
theorem c7_text_decode_utf8_latin1_fallback
    (gpUrl : String) (oracles : DocOracles)
    (module_list : List ModuleEntry) (task : String) (m : ModuleEntry)
    (doc_bytes : List Nat)
    (hfind : findModule module_list task = some m)
    (hurl : pyFalsyStr m.documentation = false)
    (hfetch : oracles.fetch
      (strDropRight gpUrl 3 ++ m.documentation.getD "") = some doc_bytes)
    (hnopdf : strContains (effectiveMimetype (m.documentation.getD "")
      m.documentation_mimetype) "pdf" = false)
    (htext : (strContains (effectiveMimetype (m.documentation.getD "")
        m.documentation_mimetype) "text" ||
      strContains (effectiveMimetype (m.documentation.getD "")
        m.documentation_mimetype) "html") = true) :
    (get_task_documentation gpUrl oracles module_list task =
      some (decodeDocText doc_bytes)) ∧
    (∀ cps : List Nat, utf8Decode doc_bytes = some cps →
      decodeDocText doc_bytes = cps) ∧
    (utf8Decode doc_bytes = .none →
      decodeDocText doc_bytes = latin1Decode doc_bytes) := by
  refine ⟨?_, ?_, ?_⟩
  · simp [get_task_documentation, hfind, hurl, hfetch, hnopdf, htext]
  · intro cps hc
    simp [decodeDocText, hc]
  · intro hc
    simp [decodeDocText, hc]

/-- **C7** witness: bytes `[0xFF, 0x41]` fail UTF-8 decoding, the
Latin-1 fallback fires, and the helper returns the Latin-1 code points
without raising. -/
theorem c7_witness :
    (get_task_documentation GENEPATTERN_URL_default docOraclesText
      [docModuleText] "ModB" = some [255, 65]) ∧
    (decodeDocText [255, 65] = latin1Decode [255, 65]) :=
  ⟨(c7_text_decode_utf8_latin1_fallback GENEPATTERN_URL_default
      docOraclesText [docModuleText] "ModB" docModuleText [255, 65]
      rfl rfl rfl rfl rfl).1,
   (c7_text_decode_utf8_latin1_fallback GENEPATTERN_URL_default
      docOraclesText [docModuleText] "ModB" docModuleText [255, 65]
      rfl rfl rfl rfl rfl).2.2 rfl⟩

/-- **C8** (amended): `upload_file(path="a/b.txt", file_content=b"hi",
replace=True)` issues exactly one request,
`PUT {base}/rest/v1/data/upload/a/b.txt?replace=True`, whose single
query parameter is the Python boolean `True` — serialised by the HTTP
stack as the string `"True"` (capitalised `str(True)`), not the
lowercase `"true"` the un-amended claim stated — with raw request body
`b"hi"`, and returns the dispatcher-normalised response.  (See the
counterexample for the lowercase-`true` refutation.) -/
theorem c8_upload_file_request
    (handler : AuthHandler) (transport : Transport) (gpUrl : String)
    (ctx : Context) :
    ((upload_file handler transport gpUrl ctx "a/b.txt" [0x68, 0x69]
        true).2 =
      [built_request handler gpUrl ctx "PUT" "/v1/data/upload/a/b.txt"
        (some [("replace", PValue.bool true)]) .none
        (some [0x68, 0x69]) .none .none]) ∧
    ((built_request handler gpUrl ctx "PUT" "/v1/data/upload/a/b.txt"
        (some [("replace", PValue.bool true)]) .none
        (some [0x68, 0x69]) .none .none).method = "PUT") ∧
    ((built_request handler gpUrl ctx "PUT" "/v1/data/upload/a/b.txt"
        (some [("replace", PValue.bool true)]) .none
        (some [0x68, 0x69]) .none .none).url =
      REST_URL gpUrl ++ "/v1/data/upload/a/b.txt" ++ "?" ++
        "replace=True") ∧
    ((built_request handler gpUrl ctx "PUT" "/v1/data/upload/a/b.txt"
        (some [("replace", PValue.bool true)]) .none
        (some [0x68, 0x69]) .none .none).params =
      [("replace", PValue.bool true)]) ∧
    ((PValue.bool true).wireStr = "True") ∧
    ((built_request handler gpUrl ctx "PUT" "/v1/data/upload/a/b.txt"
        (some [("replace", PValue.bool true)]) .none
        (some [0x68, 0x69]) .none .none).data = some [0x68, 0x69]) ∧
    ((upload_file handler transport gpUrl ctx "a/b.txt" [0x68, 0x69]
        true).1 =
      (make_request handler transport gpUrl ctx "PUT"
        "/v1/data/upload/a/b.txt" (some [("replace", PValue.bool true)])
        .none (some [0x68, 0x69]) .none .none).1) := by
  refine ⟨?_, rfl, rfl, rfl, rfl, rfl, rfl⟩
  simp only [upload_file, make_request]
  cases transport (built_request handler gpUrl ctx "PUT"
    ("/v1/data/upload/" ++ "a/b.txt")
    (some [("replace", PValue.bool true)]) .none (some [0x68, 0x69])
    .none .none) <;> rfl

/-- **C8** counterexample: the claim as stated is false — the
transmitted query string of the concrete scenario is
`replace=True` (Python's `str(True)`), not the lowercase
`replace=true`. -/
theorem c8_counterexample :
    ((upload_file cexHandler errTransport GENEPATTERN_URL_default
        cexCtx "a/b.txt" [0x68, 0x69] true).2.map HttpRequest.url =
      ["https://cloud.genepattern.org/gp/rest/v1/data/upload/a/b.txt?replace=True"]) ∧
    ((upload_file cexHandler errTransport GENEPATTERN_URL_default
        cexCtx "a/b.txt" [0x68, 0x69] true).2.map HttpRequest.url ≠
      ["https://cloud.genepattern.org/gp/rest/v1/data/upload/a/b.txt?replace=true"]) :=
  ⟨rfl, by decide⟩

/-- **C10**: only `None`-valued query parameters are stripped by the
dispatcher: an explicit `False` boolean is still transmitted.  Every
`get_task_details` dispatch carries all six `include*` keys with their
boolean values, whatever the flags; `get_all_tasks` omits
`includeHidden` entirely when the flag is `False` and sends it with the
literal string `"true"` when the flag is `True`. -/
theorem c10_bool_vs_none_param_stripping
    (handler : AuthHandler) (transport : Transport) (gpUrl : String)
    (ctx : Context) (task : String) (p1 p2 p3 p4 p5 p6 : Bool) :
    ((get_task_details handler transport gpUrl ctx task p1 p2 p3 p4 p5
        p6).2.map HttpRequest.params =
      [[("includeProperties", PValue.bool p1),
        ("includeChildren", PValue.bool p2),
        ("includeEula", PValue.bool p3),
        ("includeSupportFiles", PValue.bool p4),
        ("includeParamGroups", PValue.bool p5),
        ("includeMemorySettings", PValue.bool p6)]]) ∧
    ((get_all_tasks handler transport gpUrl ctx false).2.map
        HttpRequest.params = [[]]) ∧
    ((get_all_tasks handler transport gpUrl ctx false).2.map
        HttpRequest.url = [REST_URL gpUrl ++ "/v1/tasks/all.json"]) ∧
    ((get_all_tasks handler transport gpUrl ctx true).2.map
        HttpRequest.params = [[("includeHidden", PValue.str "true")]]) ∧
    (∀ (ps : List (String × PValue)) (k : String) (b : Bool),
      (k, PValue.bool b) ∈ ps → (k, PValue.bool b) ∈ filterNoneParams ps) := by
  refine ⟨?_, ?_, ?_, ?_, ?_⟩
  · simp only [get_task_details, make_request]
    cases transport (built_request handler gpUrl ctx "GET"
      ("/v1/tasks/" ++ task)
      (some (get_task_details_params p1 p2 p3 p4 p5 p6))
      .none .none .none .none) <;> rfl
  · simp only [get_all_tasks, make_request]
    cases transport (built_request handler gpUrl ctx "GET"
      "/v1/tasks/all.json" (some (get_all_tasks_params false))
      .none .none .none .none) <;> rfl
  · simp only [get_all_tasks, make_request]
    cases transport (built_request handler gpUrl ctx "GET"
      "/v1/tasks/all.json" (some (get_all_tasks_params false))
      .none .none .none .none) <;> rfl
  · simp only [get_all_tasks, make_request]
    cases transport (built_request handler gpUrl ctx "GET"
      "/v1/tasks/all.json" (some (get_all_tasks_params true))
      .none .none .none .none) <;> rfl
  · intro ps k b h
    exact mem_filterNoneParams.mpr ⟨h, bool_param_ne_nonePV b⟩

/-- **C10** witness: with every flag `False`, all six keys are still
transmitted with value `False`; a `False`-valued parameter survives
the stripping rule. -/
theorem c10_witness :
    ((get_task_details cexHandler errTransport GENEPATTERN_URL_default
        cexCtx "T" false false false false false false).2.map
        HttpRequest.params =
      [[("includeProperties", PValue.bool false),
        ("includeChildren", PValue.bool false),
        ("includeEula", PValue.bool false),
        ("includeSupportFiles", PValue.bool false),
        ("includeParamGroups", PValue.bool false),
        ("includeMemorySettings", PValue.bool false)]]) ∧
    (("x", PValue.bool false) ∈
      filterNoneParams [("x", PValue.bool false), ("y", PValue.none)]) :=
  ⟨(c10_bool_vs_none_param_stripping cexHandler errTransport
      GENEPATTERN_URL_default cexCtx "T" false false false false false
      false).1,
   (c10_bool_vs_none_param_stripping cexHandler errTransport
      GENEPATTERN_URL_default cexCtx "T" false false false false false
      false).2.2.2.2 [("x", PValue.bool false), ("y", PValue.none)] "x"
      false (by decide)⟩

end GP
